import Mathlib

/-!
Shallow embedding of `src/packages/common/src/engines.rs` from
jrialland/wasmer-python: the opaque compiler handle-transfer protocol and
the engine constructors built on it.

Modelling choices:
- A `CompilerConfig` trait object is identified by its observable behavior:
  the compiler it produces (`compilerId`) and its capability answers
  (`capabilities`).
- The heap is explicit: `PyState.cells` maps addresses to reference-counted
  `Arc` cells holding a `CompilerConfig` (the allocation behind
  `Arc<dyn CompilerConfig>`), and `PyState.carriers` maps the address of each
  live `OpaqueCompiler.inner` field (an `OpaqueCompilerInner`, i.e. an `Arc`
  pointer) to that pointer's target. Fresh addresses come from `nextAddr`
  and are always nonzero, as real heap addresses are.
- Fallible constructors return `Except PyErr`. Dereferencing a nonzero
  handle that does not denote a live carrier cell is undefined behavior in
  the source; the embedding returns `none` (`Option`) in that case, so that
  a theorem of the form `f s = some r` asserts defined behavior.
-/

namespace WasmerPy

/-- A compiler configuration trait object, identified by its observable
behavior: the compiler instance it produces and its capability answers. -/
structure CompilerConfig where
  compilerId : Nat
  capabilities : List Bool
deriving DecidableEq, Repr

/-- The compiler instance a configuration produces (the trait method of the
`CompilerConfig` capability). -/
def CompilerConfig.compiler (c : CompilerConfig) : Nat :=
  c.compilerId

/-- The allocation behind an `Arc<dyn CompilerConfig + Send + Sync>`: the
configuration value together with its strong reference count. -/
structure ArcCell where
  config : CompilerConfig
  strongCount : Nat
deriving DecidableEq, Repr

/-- `OpaqueCompilerInner`: a struct holding one `Arc` pointer to the shared
configuration cell. Cloning it clones the `Arc` (a reference-count bump). -/
structure OpaqueCompilerInner where
  compiler_config : Nat
deriving DecidableEq, Repr

/-- An `OpaqueCompiler` as seen through the untyped channel: the address of
its `inner : OpaqueCompilerInner` field, which is what `__inner_as_ptr`
returns and what identifies the live carrier in the heap. -/
structure OpaqueCompiler where
  innerAddr : Nat
deriving DecidableEq, Repr

/-- The explicit heap: `Arc` cells by address, live carrier `inner` fields by
address, and the next fresh address. -/
structure PyState where
  cells : List (Nat × ArcCell)
  carriers : List (Nat × OpaqueCompilerInner)
  nextAddr : Nat
deriving DecidableEq, Repr

/-- Python-level error raised by the bindings. -/
inductive PyErr where
  | runtimeError (msg : String)
deriving DecidableEq, Repr

/-- The message of the `TransferError` raised in `JIT::new` when the handle
reinterprets to a null pointer. -/
def transferErrorMsg : String :=
  "Failed to transfer the opaque compiler from the compiler"

/-- Association-list lookup by address. -/
def lookupA {α : Type} : List (Nat × α) → Nat → Option α
  | [], _ => none
  | (k, v) :: t, a => if k = a then some v else lookupA t a

/-- Increment the strong count of the cell at address `a` (an `Arc` clone). -/
def incCell : List (Nat × ArcCell) → Nat → List (Nat × ArcCell)
  | [], _ => []
  | (k, c) :: t, a =>
    if k = a then (k, { c with strongCount := c.strongCount + 1 }) :: t
    else (k, c) :: incCell t a

/-- Decrement the strong count of the cell at address `a` (an `Arc` drop);
the cell is deallocated when its count reaches zero. -/
def decCell : List (Nat × ArcCell) → Nat → List (Nat × ArcCell)
  | [], _ => []
  | (k, c) :: t, a =>
    if k = a then
      if c.strongCount ≤ 1 then t
      else (k, { c with strongCount := c.strongCount - 1 }) :: t
    else (k, c) :: decCell t a

/-- Remove the carrier entry at address `a`. -/
def removeCarrier : List (Nat × OpaqueCompilerInner) → Nat → List (Nat × OpaqueCompilerInner)
  | [], _ => []
  | (k, v) :: t, a => if k = a then t else (k, v) :: removeCarrier t a

/-- `OpaqueCompiler::raw_with_compiler`: moves the configuration into a fresh
`Arc` cell (strong count 1) and allocates the carrier whose `inner` field
holds that `Arc`. Never fails; the only side effect is the allocation. -/
def OpaqueCompiler.raw_with_compiler (s : PyState) (c : CompilerConfig) :
    PyState × OpaqueCompiler :=
  let cellAddr := s.nextAddr + 1
  let innerAddr := s.nextAddr + 2
  ({ cells := (cellAddr, { config := c, strongCount := 1 }) :: s.cells,
     carriers := (innerAddr, { compiler_config := cellAddr }) :: s.carriers,
     nextAddr := s.nextAddr + 2 },
   { innerAddr := innerAddr })

/-- `OpaqueCompiler::__inner_as_ptr`: returns the address of the `inner`
field as a plain integer. It takes `&self` and performs no mutation, so the
state is returned unchanged. -/
def OpaqueCompiler.__inner_as_ptr (s : PyState) (oc : OpaqueCompiler) :
    PyState × Nat :=
  (s, oc.innerAddr)

/-- The resolution step of `JIT::new` (lines 36-47): reinterpret the integer
as `*const OpaqueCompilerInner`, `as_ref` it (null yields the
`TransferError` branch), and clone the `OpaqueCompilerInner` out of it,
which clones the `Arc` and so increments the cell's strong count. A nonzero
handle that is not a live carrier address is a dangling dereference:
undefined behavior, embedded as `none`. -/
def resolveOpaque (s : PyState) (handle : Nat) :
    Option (Except PyErr (PyState × OpaqueCompilerInner)) :=
  if handle = 0 then
    some (Except.error (PyErr.runtimeError transferErrorMsg))
  else
    match lookupA s.carriers handle with
    | some inner =>
        some (Except.ok
          ({ s with cells := incCell s.cells inner.compiler_config }, inner))
    | none => none

/-- A `wasmer::JITEngine`: either headless or built from the compiler that a
configuration produced. -/
inductive JITEngine where
  | headless
  | configured (compilerId : Nat)
deriving DecidableEq, Repr

/-- The `JIT` pyclass: wraps a `wasmer::JITEngine`. -/
structure JIT where
  inner : JITEngine
deriving DecidableEq, Repr

/-- `JIT::new`: with no compiler argument, builds a headless engine; with a
compiler argument, takes the handle produced by
`into_opaque_compiler().__inner_as_ptr()`, resolves it (cloning the shared
`Arc`, a count increment), hands the borrowed configuration to
`wasmer::JIT::new(...).engine()`, and drops the local clone before
returning (a count decrement). Errors propagate unchanged; `none` marks the
undefined-behavior dereference of a dangling nonzero handle. -/
def JIT.new (s : PyState) (compiler : Option Nat) :
    Option (PyState × Except PyErr JIT) :=
  match compiler with
  | none => some (s, Except.ok { inner := JITEngine.headless })
  | some handle =>
    match resolveOpaque s handle with
    | none => none
    | some (Except.error e) => some (s, Except.error e)
    | some (Except.ok (s1, inner)) =>
      match lookupA s1.cells inner.compiler_config with
      | none => none
      | some cell =>
        some ({ s1 with cells := decCell s1.cells inner.compiler_config },
          Except.ok { inner := JITEngine.configured cell.config.compiler })

/-- Dropping a live `OpaqueCompiler`: its `inner` field is dropped, which
drops the carrier's `Arc` (a count decrement); the cell is deallocated when
no clone remains. Dropping a carrier that is not live is embedded as
`none`. -/
def dropOpaqueCompiler (s : PyState) (oc : OpaqueCompiler) : Option PyState :=
  match lookupA s.carriers oc.innerAddr with
  | none => none
  | some inner =>
      some { s with
        carriers := removeCarrier s.carriers oc.innerAddr,
        cells := decCell s.cells inner.compiler_config }

/-- A `wasmer::NativeEngine`: either headless or built from the compiler
that a configuration produced. -/
inductive NativeEngine where
  | headless
  | configured (compilerId : Nat)
deriving DecidableEq, Repr

/-- The `Native` pyclass: wraps a `wasmer::NativeEngine`. -/
structure Native where
  inner : NativeEngine
deriving DecidableEq, Repr

/-- Modelled from the spec: the `#[new]` constructor of the `Native` pyclass
is not among the sources under review (only the struct and its accessor
are). Per the spec, `build_Native(handle)` mirrors `build_JIT`: an absent
handle yields a headless Native engine; a present handle is resolved via the
carrier and the resolved shared configuration is handed to the Native engine
factory, with any `TransferError` propagated unchanged. -/
def Native.new (s : PyState) (compiler : Option Nat) :
    Option (PyState × Except PyErr Native) :=
  match compiler with
  | none => some (s, Except.ok { inner := NativeEngine.headless })
  | some handle =>
    match resolveOpaque s handle with
    | none => none
    | some (Except.error e) => some (s, Except.error e)
    | some (Except.ok (s1, inner)) =>
      match lookupA s1.cells inner.compiler_config with
      | none => none
      | some cell =>
        some ({ s1 with cells := decCell s1.cells inner.compiler_config },
          Except.ok { inner := NativeEngine.configured cell.config.compiler })

/-- Modelled from the spec: every engine, headless or configured, can
execute precompiled code. -/
def JITEngine.canExecutePrecompiled : JITEngine → Bool
  | _ => true

/-- Modelled from the spec: a headless engine fails (rather than crashes)
when asked to compile new source at runtime; a configured engine compiles
with the compiler it was built from. -/
def JITEngine.compileNewSource : JITEngine → Except PyErr Nat
  | JITEngine.headless =>
      Except.error (PyErr.runtimeError "headless engine cannot compile new source")
  | JITEngine.configured cid => Except.ok cid

/-- Modelled from the spec: a headless Native engine likewise fails, rather
than crashes, when asked to compile new source at runtime. -/
def NativeEngine.compileNewSource : NativeEngine → Except PyErr Nat
  | NativeEngine.headless =>
      Except.error (PyErr.runtimeError "headless engine cannot compile new source")
  | NativeEngine.configured cid => Except.ok cid

/-- Incrementing and then decrementing the strong count of the same cell is
the identity on a heap whose cells all have at least one owner. -/
theorem decCell_incCell_cancel (l : List (Nat × ArcCell)) (a : Nat)
    (hpos : ∀ p ∈ l, 1 ≤ p.2.strongCount) :
    decCell (incCell l a) a = l := by
  induction l with
  | nil => rfl
  | cons hd t ih =>
    obtain ⟨k, cell⟩ := hd
    have hhd : 1 ≤ cell.strongCount := hpos (k, cell) (List.mem_cons_self _ _)
    by_cases hk : k = a
    · subst hk
      simp only [incCell, decCell, if_pos rfl]
      have : ¬ cell.strongCount + 1 ≤ 1 := by omega
      simp [this]
    · simp only [incCell, decCell, if_neg hk]
      rw [ih]
      intro p hp
      exact hpos p (List.mem_cons_of_mem _ hp)

/-- C1. Round-trip: wrapping a configuration via `raw_with_compiler`, taking
its handle via `__inner_as_ptr` and resolving that handle as `JIT::new` does
yields the very configuration that was wrapped (so the compiler produced and
every capability answer coincide with the original), and building the engine
from that handle produces the engine configured with the original
configuration's compiler. -/
theorem round_trip_resolve (s : PyState) (c : CompilerConfig) :
    ∃ s2 inner,
      resolveOpaque (OpaqueCompiler.raw_with_compiler s c).1
          (OpaqueCompiler.__inner_as_ptr (OpaqueCompiler.raw_with_compiler s c).1
            (OpaqueCompiler.raw_with_compiler s c).2).2
        = some (Except.ok (s2, inner)) ∧
      (lookupA s2.cells inner.compiler_config).map ArcCell.config = some c ∧
      JIT.new (OpaqueCompiler.raw_with_compiler s c).1
          (some (OpaqueCompiler.__inner_as_ptr (OpaqueCompiler.raw_with_compiler s c).1
            (OpaqueCompiler.raw_with_compiler s c).2).2)
        = some ((OpaqueCompiler.raw_with_compiler s c).1,
            Except.ok { inner := JITEngine.configured c.compiler }) := by
  refine ⟨{ cells := (s.nextAddr + 1, { config := c, strongCount := 2 }) :: s.cells,
            carriers := (s.nextAddr + 2, { compiler_config := s.nextAddr + 1 }) :: s.carriers,
            nextAddr := s.nextAddr + 2 },
          { compiler_config := s.nextAddr + 1 }, ?_, ?_, ?_⟩
  · simp [OpaqueCompiler.raw_with_compiler, OpaqueCompiler.__inner_as_ptr,
      resolveOpaque, lookupA, incCell]
  · simp [lookupA]
  · simp [JIT.new, OpaqueCompiler.raw_with_compiler, OpaqueCompiler.__inner_as_ptr,
      resolveOpaque, lookupA, incCell, decCell, CompilerConfig.compiler]

/-- C2. Null handle rejection: resolving the handle value 0 always fails
with the `TransferError` (a `RuntimeError` with the descriptive transfer
message), never succeeds and never reaches the undefined-behavior case; in
`JIT::new` (and the spec-modelled `Native::new`) the null handle takes the
error branch and leaves the state untouched. -/
theorem null_handle_rejected (s : PyState) :
    resolveOpaque s 0 = some (Except.error (PyErr.runtimeError transferErrorMsg)) ∧
    JIT.new s (some 0) = some (s, Except.error (PyErr.runtimeError transferErrorMsg)) ∧
    Native.new s (some 0) = some (s, Except.error (PyErr.runtimeError transferErrorMsg)) :=
  ⟨rfl, rfl, rfl⟩

/-- C3: counterexample. The claim says the Engine holds a clone of the
shared pointer, so that the configuration outlives the dropped carrier via
reference counting. Concretely: wrapping configuration 7 in the empty heap
puts its cell at address 1 with strong count 1; building a `JIT` engine from
handle 2 succeeds yet returns the heap unchanged — the strong count is still
1, not 2, because the constructor's `Arc` clone is a local dropped before
returning — and dropping the carrier then deallocates the cell entirely
(`cells = []`) even though the engine exists, so the engine holds no clone
and the configuration does not outlive the carrier. -/
theorem engine_holds_clone_counterexample :
    JIT.new (OpaqueCompiler.raw_with_compiler { cells := [], carriers := [], nextAddr := 0 }
        { compilerId := 7, capabilities := [true] }).1 (some 2)
      = some ((OpaqueCompiler.raw_with_compiler { cells := [], carriers := [], nextAddr := 0 }
          { compilerId := 7, capabilities := [true] }).1,
          Except.ok { inner := JITEngine.configured 7 }) ∧
    (lookupA (OpaqueCompiler.raw_with_compiler { cells := [], carriers := [], nextAddr := 0 }
        { compilerId := 7, capabilities := [true] }).1.cells 1).map ArcCell.strongCount
      ≠ some 2 ∧
    dropOpaqueCompiler (OpaqueCompiler.raw_with_compiler { cells := [], carriers := [], nextAddr := 0 }
        { compilerId := 7, capabilities := [true] }).1 { innerAddr := 2 }
      = some { cells := [], carriers := [], nextAddr := 2 } := by
  refine ⟨rfl, ?_, rfl⟩
  decide

/-- C3 amended: an Engine successfully built from a handle continues to
function correctly after the originating `OpaqueCompiler` carrier is
dropped — not because the engine retains a clone of the shared pointer (it
does not; the clone is a local of the constructor), but because engine
construction completes before `JIT::new` returns and the engine value is
independent of the carrier's liveness: after the drop, the engine is still
the one configured with the wrapped configuration's compiler, can execute
precompiled code, and compiles with that compiler. -/
theorem engine_survives_carrier_drop (s : PyState) (c : CompilerConfig) :
    ∃ s3,
      JIT.new (OpaqueCompiler.raw_with_compiler s c).1
          (some (OpaqueCompiler.raw_with_compiler s c).2.innerAddr)
        = some ((OpaqueCompiler.raw_with_compiler s c).1,
            Except.ok { inner := JITEngine.configured c.compiler }) ∧
      dropOpaqueCompiler (OpaqueCompiler.raw_with_compiler s c).1
          (OpaqueCompiler.raw_with_compiler s c).2 = some s3 ∧
      JITEngine.canExecutePrecompiled (JITEngine.configured c.compiler) = true ∧
      JITEngine.compileNewSource (JITEngine.configured c.compiler) = Except.ok c.compiler := by
  refine ⟨{ s with nextAddr := s.nextAddr + 2 }, ?_, ?_, rfl, rfl⟩
  · simp [JIT.new, OpaqueCompiler.raw_with_compiler, resolveOpaque, lookupA,
      incCell, decCell, CompilerConfig.compiler]
  · simp [dropOpaqueCompiler, OpaqueCompiler.raw_with_compiler, lookupA,
      removeCarrier, decCell]

/-- C4. Headless default: `JIT::new` with no compiler argument always
succeeds, with no side effect on the heap, and yields the headless engine,
which (as modelled from the spec) can execute precompiled code but fails
with an error — it does not crash — when asked to compile new source. -/
theorem jit_headless_default (s : PyState) :
    JIT.new s none = some (s, Except.ok { inner := JITEngine.headless }) ∧
    JITEngine.canExecutePrecompiled JITEngine.headless = true ∧
    JITEngine.compileNewSource JITEngine.headless
      = Except.error (PyErr.runtimeError "headless engine cannot compile new source") :=
  ⟨rfl, rfl, rfl⟩

/-- C5. Native variant parity: the spec-modelled `Native::new` offers the
same construction operation as `JIT::new` — with no compiler argument it
succeeds with a headless Native engine, and with a handle obtained from a
wrapped configuration it resolves the handle and builds the Native engine
configured with that configuration's compiler. -/
theorem native_variant_parity (s : PyState) (c : CompilerConfig) :
    Native.new s none = some (s, Except.ok { inner := NativeEngine.headless }) ∧
    Native.new (OpaqueCompiler.raw_with_compiler s c).1
        (some (OpaqueCompiler.raw_with_compiler s c).2.innerAddr)
      = some ((OpaqueCompiler.raw_with_compiler s c).1,
          Except.ok { inner := NativeEngine.configured c.compiler }) := by
  refine ⟨rfl, ?_⟩
  simp [Native.new, OpaqueCompiler.raw_with_compiler, resolveOpaque, lookupA,
    incCell, decCell, CompilerConfig.compiler]

/-- C6. Failure propagation and atomicity: whenever handle resolution fails
with an error, both engine constructors return that very error unchanged,
the heap is exactly as before the call (no engine, partial or complete, and
no other effect), and the error is the descriptive `TransferError`
`RuntimeError` message. -/
theorem transfer_error_propagation (s : PyState) (h : Nat) (e : PyErr)
    (hres : resolveOpaque s h = some (Except.error e)) :
    JIT.new s (some h) = some (s, Except.error e) ∧
    Native.new s (some h) = some (s, Except.error e) ∧
    e = PyErr.runtimeError transferErrorMsg := by
  have he : e = PyErr.runtimeError transferErrorMsg := by
    by_cases h0 : h = 0
    · subst h0
      simp [resolveOpaque] at hres
      exact hres.symm
    · simp only [resolveOpaque, if_neg h0] at hres
      cases hl : lookupA s.carriers h with
      | none => rw [hl] at hres; exact absurd hres (by simp)
      | some inner => rw [hl] at hres; exact absurd hres (by simp)
  refine ⟨?_, ?_, he⟩ <;> simp [JIT.new, Native.new, hres]

/-- C6 witness: at the concrete null handle in the empty heap, resolution
fails and both constructors propagate the `TransferError` unchanged with the
heap untouched. -/
theorem transfer_error_propagation_witness :
    JIT.new { cells := [], carriers := [], nextAddr := 0 } (some 0)
      = some ({ cells := [], carriers := [], nextAddr := 0 },
          Except.error (PyErr.runtimeError transferErrorMsg)) ∧
    Native.new { cells := [], carriers := [], nextAddr := 0 } (some 0)
      = some ({ cells := [], carriers := [], nextAddr := 0 },
          Except.error (PyErr.runtimeError transferErrorMsg)) ∧
    PyErr.runtimeError transferErrorMsg = PyErr.runtimeError transferErrorMsg :=
  transfer_error_propagation { cells := [], carriers := [], nextAddr := 0 } 0
    (PyErr.runtimeError transferErrorMsg) rfl

/-- C7. Idempotent, pure accessor: `__inner_as_ptr` leaves the state — in
particular every cell and its reference count — exactly as it was, and
calling it a second time, from the state the first call returned, yields the
same integer as the first call. -/
theorem inner_as_ptr_idempotent (s : PyState) (oc : OpaqueCompiler) :
    (OpaqueCompiler.__inner_as_ptr s oc).1 = s ∧
    ((OpaqueCompiler.__inner_as_ptr s oc).1).cells = s.cells ∧
    (OpaqueCompiler.__inner_as_ptr (OpaqueCompiler.__inner_as_ptr s oc).1 oc).2
      = (OpaqueCompiler.__inner_as_ptr s oc).2 :=
  ⟨rfl, rfl, rfl⟩

/-- C8. Isolation: wrapping two configurations one after the other yields
two carriers that are both alive afterwards and whose `__inner_as_ptr`
values are distinct integers. -/
theorem wrapped_handles_distinct (s : PyState) (c1 c2 : CompilerConfig) :
    (OpaqueCompiler.raw_with_compiler s c1).2.innerAddr
      ≠ (OpaqueCompiler.raw_with_compiler
          (OpaqueCompiler.raw_with_compiler s c1).1 c2).2.innerAddr ∧
    lookupA (OpaqueCompiler.raw_with_compiler
        (OpaqueCompiler.raw_with_compiler s c1).1 c2).1.carriers
        (OpaqueCompiler.raw_with_compiler s c1).2.innerAddr ≠ none ∧
    lookupA (OpaqueCompiler.raw_with_compiler
        (OpaqueCompiler.raw_with_compiler s c1).1 c2).1.carriers
        (OpaqueCompiler.raw_with_compiler
          (OpaqueCompiler.raw_with_compiler s c1).1 c2).2.innerAddr ≠ none := by
  refine ⟨?_, ?_, ?_⟩
  · simp [OpaqueCompiler.raw_with_compiler]
  · have hne : ¬ (s.nextAddr + 2 + 2 = s.nextAddr + 2) := by omega
    simp [OpaqueCompiler.raw_with_compiler, lookupA, hne]
  · simp [OpaqueCompiler.raw_with_compiler, lookupA]

/-- C9. For a carrier created by `raw_with_compiler` — the only constructor
of live carriers — `__inner_as_ptr` returns a nonzero integer, so `JIT::new`
given that handle never takes the null-pointer `TransferError` branch:
construction proceeds to the configured-engine path. -/
theorem live_handle_nonzero (s : PyState) (c : CompilerConfig) :
    (OpaqueCompiler.__inner_as_ptr (OpaqueCompiler.raw_with_compiler s c).1
        (OpaqueCompiler.raw_with_compiler s c).2).2 ≠ 0 ∧
    JIT.new (OpaqueCompiler.raw_with_compiler s c).1
        (some (OpaqueCompiler.__inner_as_ptr (OpaqueCompiler.raw_with_compiler s c).1
          (OpaqueCompiler.raw_with_compiler s c).2).2)
      = some ((OpaqueCompiler.raw_with_compiler s c).1,
          Except.ok { inner := JITEngine.configured c.compiler }) := by
  refine ⟨?_, ?_⟩
  · simp [OpaqueCompiler.raw_with_compiler, OpaqueCompiler.__inner_as_ptr]
  · simp [JIT.new, OpaqueCompiler.raw_with_compiler, OpaqueCompiler.__inner_as_ptr,
      resolveOpaque, lookupA, incCell, decCell, CompilerConfig.compiler]

/-- C10. Frame effect of successful construction: on a heap whose cells all
have at least one owner, a successful `JIT::new` from a handle returns the
state exactly as it was — the constructor's `Arc` clone is a local dropped
before returning, so the engine retains no co-ownership and the shared
configuration's reference count ends equal to its value before
resolution. -/
theorem jit_new_restores_refcount (s s2 : PyState) (h : Nat) (eng : JIT)
    (hpos : ∀ p ∈ s.cells, 1 ≤ p.2.strongCount)
    (hnew : JIT.new s (some h) = some (s2, Except.ok eng)) :
    s2 = s := by
  by_cases h0 : h = 0
  · subst h0
    simp [JIT.new, resolveOpaque] at hnew
  · simp only [JIT.new, resolveOpaque, if_neg h0] at hnew
    cases hl : lookupA s.carriers h with
    | none => rw [hl] at hnew; exact absurd hnew (by simp)
    | some inner =>
      rw [hl] at hnew
      simp only at hnew
      cases hc : lookupA (incCell s.cells inner.compiler_config) inner.compiler_config with
      | none => rw [hc] at hnew; exact absurd hnew (by simp)
      | some cell =>
        rw [hc] at hnew
        simp only [Option.some.injEq, Prod.mk.injEq] at hnew
        rw [← hnew.1, decCell_incCell_cancel s.cells inner.compiler_config hpos]

/-- C10 witness: in the heap holding the single wrapped configuration 7
(its cell owned once), building a `JIT` engine from handle 2 succeeds and
the resulting state equals the state before the call. -/
theorem jit_new_restores_refcount_witness :
    ({ cells := [(1, { config := { compilerId := 7, capabilities := [] }, strongCount := 1 })],
       carriers := [(2, { compiler_config := 1 })],
       nextAddr := 2 } : PyState)
      = { cells := [(1, { config := { compilerId := 7, capabilities := [] }, strongCount := 1 })],
          carriers := [(2, { compiler_config := 1 })],
          nextAddr := 2 } :=
  jit_new_restores_refcount
    { cells := [(1, { config := { compilerId := 7, capabilities := [] }, strongCount := 1 })],
      carriers := [(2, { compiler_config := 1 })],
      nextAddr := 2 }
    { cells := [(1, { config := { compilerId := 7, capabilities := [] }, strongCount := 1 })],
      carriers := [(2, { compiler_config := 1 })],
      nextAddr := 2 }
    2 { inner := JITEngine.configured 7 } (by decide) rfl

end WasmerPy
